import Mathlib

/-!
# CineSearch backend — verification of the search broker core

Shallow embedding of the CineSearch backend (`server.js`): the `/api/search`
Express handler (validation, person resolution, title/discover strategy
selection, empty-result fallback), the `tmdbFetch` caching upstream client,
and the abuse-control (rate/speed limiter) configuration.

JavaScript query parameters arrive as strings (or are absent); we model each
request field as `Option String` and reproduce the handler's own coercions
(`Number(...)`, truthiness, `trim`, the `/^\d+$/` genre test).  Upstream
network I/O is modelled by an oracle `net : String → List (String × JVal) →
TmdbDoc` giving the document the provider would return for a path and
parameter object; the cache is explicit state.  Each handler run records the
list of upstream-client fetch invocations (`fetches`) and the subset that hit
the network (`netCalls`).
-/

namespace CineSearch

/-- A JSON value as it occurs in the query-parameter objects the backend
builds: strings, numbers (here always integers) and booleans. -/
inductive JVal where
  | str (s : String)
  | num (n : Int)
  | jbool (b : Bool)
deriving DecidableEq

/-- Rendering of a parameter value inside `JSON.stringify` output.  Escaping
of quote/backslash characters inside string values is not modelled; no claim
below depends on parameter values containing such characters. -/
def jvalRender : JVal → String
  | .str s => "\"" ++ s ++ "\""
  | .num n => toString n
  | .jbool b => if b then "true" else "false"

/-- Comma-separated join of the rendered properties. -/
def commaJoin : List String → String
  | [] => ""
  | [s] => s
  | s :: rest => s ++ "," ++ commaJoin rest

/-- `JSON.stringify` of a flat JavaScript object, with the properties in
insertion order (as JavaScript preserves it for string keys). -/
def jsonStringify (ps : List (String × JVal)) : String :=
  "\x7b" ++ commaJoin (ps.map fun p => "\"" ++ p.1 ++ "\":" ++ jvalRender p.2) ++ "\x7d"

/-- The upstream client's cache key:
`const cacheKey = path + "|" + JSON.stringify(params)` (source: `tmdbFetch`). -/
def cacheKey (path : String) (ps : List (String × JVal)) : String :=
  path ++ "|" ++ jsonStringify ps

/-- `CACHE_TTL_SECONDS = 600` in the source configuration. -/
def CACHE_TTL_SECONDS : Nat := 600

/-- An item of an upstream result list; the handler only ever reads `id`
(of `results[0]`), so other fields are not modelled. -/
structure TmdbItem where
  id : Int
deriving DecidableEq

/-- An upstream response document, restricted to the fields the handler
reads: `results`, `total_results`, `total_pages`.  `Option` models property
absence (`data.results || []` guards). -/
structure TmdbDoc where
  results : Option (List TmdbItem)
  total_results : Option Nat
  total_pages : Option Nat
deriving DecidableEq

/-- One stored cache entry: key, document, absolute expiry time (seconds). -/
structure CacheEntry where
  key : String
  doc : TmdbDoc
  expiresAt : Nat
deriving DecidableEq

/-- The node-cache store.  `cacheSet` prepends and `cacheGet` takes the most
recent entry for a key, which is observationally the overwrite semantics of
`cache.set`. -/
abbrev Cache := List CacheEntry

/-- `cache.get(key)`: a hit only while the entry is unexpired (node-cache
treats an entry as expired once `now` passes its expiry time; an
expired-but-not-swept entry is a miss). -/
def cacheGet (c : Cache) (key : String) (now : Nat) : Option TmdbDoc :=
  match c.find? (fun e => e.key == key) with
  | some e => if now ≤ e.expiresAt then some e.doc else none
  | none => none

/-- `cache.set(key, doc)` at time `now`: entry expires `CACHE_TTL_SECONDS`
after insertion. -/
def cacheSet (c : Cache) (key : String) (doc : TmdbDoc) (now : Nat) : Cache :=
  ⟨key, doc, now + CACHE_TTL_SECONDS⟩ :: c

/-- An upstream call: path and query-parameter object (in insertion order).
`api_key` is added by axios after the cache key is formed and is therefore
not part of the modelled parameter object, exactly as in `tmdbFetch`. -/
abbrev Call := String × List (String × JVal)

/-- Result of one `tmdbFetch` invocation: the document obtained, the cache
afterwards, and the network calls performed (`[]` on a cache hit). -/
structure FetchOut where
  doc : TmdbDoc
  cache : Cache
  netCalls : List Call
deriving DecidableEq

/-- `tmdbFetch(path, params)`: consult the cache under
`cacheKey path params`; on a hit return the cached document with no network
I/O, on a miss ask the network oracle, store the response and return it. -/
def tmdbFetch (net : String → List (String × JVal) → TmdbDoc) (now : Nat)
    (path : String) (params : List (String × JVal)) (c : Cache) : FetchOut :=
  match cacheGet c (cacheKey path params) now with
  | some doc => ⟨doc, c, []⟩
  | none =>
      let doc := net path params
      ⟨doc, cacheSet c (cacheKey path params) doc now, [(path, params)]⟩

/-- JavaScript truthiness of an optional query-parameter string: present and
non-empty. -/
def truthy : Option String → Bool
  | none => false
  | some s => !s.isEmpty

/-- JavaScript `s.trim()`: strip leading and trailing whitespace. -/
def jsTrim (s : String) : String :=
  ⟨((s.data.dropWhile Char.isWhitespace).reverse.dropWhile Char.isWhitespace).reverse⟩

/-- The `/^\d+$/` test used for the `genre` parameter. -/
def digitString (s : String) : Bool :=
  !s.isEmpty && s.data.all Char.isDigit

/-- Decimal digits to a natural number ( `none` unless a non-empty
all-digit list). -/
def decDigits? (l : List Char) : Option Nat :=
  if l.isEmpty then none
  else if l.all Char.isDigit then
    some (l.foldl (fun a c => a * 10 + (c.toNat - 48)) 0)
  else none

/-- Split a character list at every `'.'` (the behaviour of
`splitOn "."` on the strings `Number` is applied to). -/
def splitDot : List Char → List Char → List (List Char)
  | [], acc => [acc.reverse]
  | c :: rest, acc =>
      if c = '.' then acc.reverse :: splitDot rest []
      else splitDot rest (c :: acc)

/-- Embedding of JavaScript `Number(s)` restricted to integer outcomes:
`some n` when `Number(s)` is the integer `n`, `none` when it is `NaN` or not
an integer.  Covers optional surrounding whitespace, an optional sign,
decimal digits, and a fractional part that is all zeros (`"5.0"` → 5);
the empty / all-whitespace string is `0`.  Exponent, hexadecimal and
`Infinity` syntax are not modelled; no claim below depends on them. -/
def jsNumberInt (s : String) : Option Int :=
  match (jsTrim s).data with
  | [] => some 0
  | c :: rest =>
      let signDigits : Bool × List Char :=
        if c = '-' then (true, rest)
        else if c = '+' then (false, rest)
        else (false, c :: rest)
      let render (n : Nat) : Int := if signDigits.1 then -(n : Int) else (n : Int)
      match splitDot signDigits.2 [] with
      | [ip] => (decDigits? ip).map render
      | [ip, fp] =>
          if fp.all (· = '0') then (decDigits? ip).map render
          else none
      | _ => none

/-- The `/api/search` request as destructured from `req.query`: every field
is the raw string from the URL, or absent. -/
structure Req where
  query : Option String
  year : Option String
  genre : Option String
  cast : Option String
  director : Option String
  page : Option String
deriving DecidableEq

/-- The distinct validation errors of the `/api/search` handler
(each a distinct 400 response body in the source). -/
inductive ApiError where
  | missingCriteria
  | invalidYear
  | invalidPage
  | invalidGenre
  | castTooLong
  | directorTooLong
deriving DecidableEq

/-- The success envelope `{ results, total_results, total_pages, page }`. -/
structure SearchOk where
  results : List TmdbItem
  total_results : Nat
  total_pages : Nat
  page : Int
deriving DecidableEq

/-- Year validation: `Number(year)` must be an integer in
`[1880, currentYear + 5]`; vacuously fine when `year` is absent (the handler
guards with `year !== undefined`). -/
def yearOk (currentYear : Int) : Option String → Bool
  | none => true
  | some ys =>
      match jsNumberInt ys with
      | some y => decide (1880 ≤ y) && decide (y ≤ currentYear + 5)
      | none => false

/-- Page validation: `Number(page ?? "1")` must be an integer in `[1, 500]`;
returns the page number on success. -/
def pageVal (po : Option String) : Option Int :=
  match jsNumberInt (po.getD "1") with
  | some p => if 1 ≤ p && p ≤ 500 then some p else none
  | none => none

/-- Genre validation failure: present but not matching `/^\d+$/`. -/
def genreBad : Option String → Bool
  | some g => !digitString g
  | none => false

/-- The parameter object of a person-search call:
`{ query: <trimmed name>, include_adult: false }`. -/
def personParams (nm : String) : List (String × JVal) :=
  [("query", JVal.str nm), ("include_adult", JVal.jbool false)]

/-- The person-resolution fetch: `tmdbFetch("/search/person", ...)`. -/
def resolvePerson (net : String → List (String × JVal) → TmdbDoc) (now : Nat)
    (nm : String) (c : Cache) : FetchOut :=
  tmdbFetch net now "/search/person" (personParams nm) c

/-- `personSearch.results[0].id` when the result set is non-empty; `none`
models the `!personSearch.results || personSearch.results.length === 0`
short-circuit condition. -/
def headId (d : TmdbDoc) : Option Int :=
  match d.results with
  | some (i :: _) => some i.id
  | _ => none

/-- The `!data.results || data.results.length === 0` emptiness test driving
the fallback. -/
def emptyResults (d : TmdbDoc) : Bool :=
  match d.results with
  | some l => l.isEmpty
  | none => true

/-- Shape the response envelope from an upstream document:
`{ results: data.results || [], total_results: data.total_results || 0,
total_pages: data.total_pages || 0, page: pageNum }`. -/
def mkOk (d : TmdbDoc) (p : Int) : SearchOk :=
  ⟨d.results.getD [], d.total_results.getD 0, d.total_pages.getD 0, p⟩

/-- JavaScript truthiness of the resolved person id variable (`castId` /
`directorId`): defined and non-zero. -/
def idTruthy : Option Int → Bool
  | some i => i != 0
  | none => false

/-- Output of the strategy stage: response envelope, cache afterwards,
fetch invocations and network calls of the stage, in order. -/
structure StratOut where
  ok : SearchOk
  cache : Cache
  fetches : List Call
  netCalls : List Call
deriving DecidableEq

/-- The strategy-selection and execution part of the handler: the
`useDiscover` choice, the title-search or discover call with its parameter
object built exactly as in the source, and the single empty-result
fallback inside the discover branch. -/
def runStrategy (net : String → List (String × JVal) → TmdbDoc) (now : Nat)
    (req : Req) (p : Int) (castId directorId : Option Int) (c : Cache) : StratOut :=
  let useDiscover :=
    truthy req.genre || idTruthy castId || idTruthy directorId ||
      (truthy req.year && !truthy req.query)
  if !useDiscover then
    let params :=
      [("query", JVal.str (jsTrim (req.query.getD ""))), ("page", JVal.num p),
        ("include_adult", JVal.jbool false)] ++
      (if truthy req.year then [("primary_release_year", JVal.str (req.year.getD ""))] else [])
    let f := tmdbFetch net now "/search/movie" params c
    ⟨mkOk f.doc p, f.cache, [("/search/movie", params)], f.netCalls⟩
  else
    let params :=
      [("page", JVal.num p), ("include_adult", JVal.jbool false),
        ("sort_by", JVal.str "popularity.desc")] ++
      (if truthy req.query then [("with_keywords", JVal.str (jsTrim (req.query.getD "")))] else []) ++
      (if truthy req.year then [("primary_release_year", JVal.str (req.year.getD ""))] else []) ++
      (if truthy req.genre then [("with_genres", JVal.str (req.genre.getD ""))] else []) ++
      (match castId with
        | some i => if i != 0 then [("with_cast", JVal.str (toString i))] else []
        | none => []) ++
      (match directorId with
        | some i => if i != 0 then [("with_crew", JVal.str (toString i))] else []
        | none => [])
    let f := tmdbFetch net now "/discover/movie" params c
    if truthy req.query && emptyResults f.doc then
      let fbParams :=
        [("query", JVal.str (jsTrim (req.query.getD ""))), ("page", JVal.num p),
          ("include_adult", JVal.jbool false)] ++
        (if truthy req.year then [("primary_release_year", JVal.str (req.year.getD ""))] else [])
      let f2 := tmdbFetch net now "/search/movie" fbParams f.cache
      ⟨mkOk f2.doc p, f2.cache,
        [("/discover/movie", params), ("/search/movie", fbParams)],
        f.netCalls ++ f2.netCalls⟩
    else
      ⟨mkOk f.doc p, f.cache, [("/discover/movie", params)], f.netCalls⟩

instance : DecidableEq (Except ApiError SearchOk) := fun
  | .ok a, .ok b =>
      if h : a = b then .isTrue (by rw [h]) else .isFalse (by simp [h])
  | .ok _, .error _ => .isFalse (by simp)
  | .error _, .ok _ => .isFalse (by simp)
  | .error a, .error b =>
      if h : a = b then .isTrue (by rw [h]) else .isFalse (by simp [h])

/-- Full outcome of one handler run: response (error or envelope), final
cache, fetch invocations and network calls in order. -/
structure HOut where
  result : Except ApiError SearchOk
  cache : Cache
  fetches : List Call
  netCalls : List Call
deriving DecidableEq

/-- Director-name resolution stage (runs after cast resolution, with that
stage's cache and traces): length check, person search, empty-result
short-circuit, then the strategy stage. -/
def directorStage (net : String → List (String × JVal) → TmdbDoc) (now : Nat)
    (req : Req) (p : Int) (castId : Option Int) (c : Cache)
    (fs ns : List Call) : HOut :=
  if truthy req.director then
    let dt := jsTrim (req.director.getD "")
    if dt.length > 100 then ⟨.error .directorTooLong, c, fs, ns⟩
    else
      let f := resolvePerson net now dt c
      let fs2 := fs ++ [("/search/person", personParams dt)]
      let ns2 := ns ++ f.netCalls
      match headId f.doc with
      | none => ⟨.ok ⟨[], 0, 0, p⟩, f.cache, fs2, ns2⟩
      | some did =>
          let s := runStrategy net now req p castId (some did) f.cache
          ⟨.ok s.ok, s.cache, fs2 ++ s.fetches, ns2 ++ s.netCalls⟩
  else
    let s := runStrategy net now req p castId none c
    ⟨.ok s.ok, s.cache, fs ++ s.fetches, ns ++ s.netCalls⟩

/-- Cast-name resolution stage: length check, person search, empty-result
short-circuit, then the director stage. -/
def castStage (net : String → List (String × JVal) → TmdbDoc) (now : Nat)
    (req : Req) (p : Int) (c : Cache) : HOut :=
  if truthy req.cast then
    let ct := jsTrim (req.cast.getD "")
    if ct.length > 100 then ⟨.error .castTooLong, c, [], []⟩
    else
      let f := resolvePerson net now ct c
      match headId f.doc with
      | none => ⟨.ok ⟨[], 0, 0, p⟩, f.cache, [("/search/person", personParams ct)], f.netCalls⟩
      | some cid =>
          directorStage net now req p (some cid) f.cache
            [("/search/person", personParams ct)] f.netCalls
  else
    directorStage net now req p none c [] []

/-- The `GET /api/search` handler: presence check on the raw strings, then
year / page / genre validation in source order, then the resolution and
strategy stages. -/
def searchHandler (net : String → List (String × JVal) → TmdbDoc) (now : Nat)
    (currentYear : Int) (req : Req) (c0 : Cache) : HOut :=
  if !(truthy req.query || truthy req.year || truthy req.genre ||
      truthy req.cast || truthy req.director) then
    ⟨.error .missingCriteria, c0, [], []⟩
  else if req.year.isSome && !yearOk currentYear req.year then
    ⟨.error .invalidYear, c0, [], []⟩
  else
    match pageVal req.page with
    | none => ⟨.error .invalidPage, c0, [], []⟩
    | some p =>
        if genreBad req.genre then ⟨.error .invalidGenre, c0, [], []⟩
        else castStage net now req p c0

/-! ## Abuse control

The rate/speed limiting configuration from the source:
`slowDown({ windowMs: 60000, delayAfter: 30, delayMs: (hits) => (hits - 30) * 500 })`
and `rateLimit({ windowMs: 60000, max: 40, standardHeaders: true })`, applied
to `/api/` only when `NODE_ENV !== "test"`.

Modelled from the spec: the window-counting machinery itself lives in the
`express-slow-down` / `express-rate-limit` libraries, not in this
repository; following the spec's description it is abstracted as the number
`n` of requests the client address has issued within the trailing 60-second
window, this request included. -/

/-- `windowMs: 60 * 1000` (milliseconds). -/
def WINDOW_MS : Nat := 60000

/-- `delayAfter: 30`. -/
def DELAY_AFTER : Nat := 30

/-- `delayMs: (hits) => (hits - 30) * 500`. -/
def delayMsFn (hits : Nat) : Nat := (hits - 30) * 500

/-- `max: 40` of the hard limiter. -/
def RATE_MAX : Nat := 40

/-- `standardHeaders: true`: the 429 response carries the standard
rate-limit count/reset headers. -/
def RATE_STANDARD_HEADERS : Bool := true

/-- What abuse control does to one request: added delay (milliseconds)
before it reaches the planner, and whether it is rejected with
`RateLimited`. -/
structure AbuseOutcome where
  delayMs : Nat
  rejected : Bool
deriving DecidableEq

/-- Number of the recorded request timestamps lying in the trailing
60-second window ending at `t`. -/
def countInWindow (times : List Nat) (t : Nat) : Nat :=
  (times.filter (fun s => s ≤ t && t < s + WINDOW_MS)).length

/-- Abuse control for a request at time `t` from an address with prior
in-window request timestamps `times`: outside test mode, the speed limiter
delays by `delayMsFn n` once `n` exceeds `DELAY_AFTER`, and the hard limiter
rejects once `n` exceeds `RATE_MAX`, where `n` counts this request too. -/
def abuseControl (testMode : Bool) (times : List Nat) (t : Nat) : AbuseOutcome :=
  if testMode then ⟨0, false⟩
  else
    let n := countInWindow (t :: times) t
    ⟨if n > DELAY_AFTER then delayMsFn n else 0, decide (n > RATE_MAX)⟩

/-! ## Derived abbreviations (definitions only; used in theorem statements) -/

/-- The trimmed cast name (`cast.trim()` in the handler). -/
def castTrim (req : Req) : String := jsTrim (req.cast.getD "")

/-- The trimmed director name (`director.trim()` in the handler). -/
def dirTrim (req : Req) : String := jsTrim (req.director.getD "")

/-- The trimmed title query (`query.trim()` in the handler). -/
def queryTrim (req : Req) : String := jsTrim (req.query.getD "")

/-- The discover parameter object built from the request and resolved ids,
exactly as assembled in the discover branch of the handler. -/
def discoverParams (req : Req) (p : Int) (ciOpt diOpt : Option Int) : List (String × JVal) :=
  [("page", JVal.num p), ("include_adult", JVal.jbool false),
    ("sort_by", JVal.str "popularity.desc")] ++
  (if truthy req.query then [("with_keywords", JVal.str (queryTrim req))] else []) ++
  (if truthy req.year then [("primary_release_year", JVal.str (req.year.getD ""))] else []) ++
  (if truthy req.genre then [("with_genres", JVal.str (req.genre.getD ""))] else []) ++
  (match ciOpt with
    | some i => if i != 0 then [("with_cast", JVal.str (toString i))] else []
    | none => []) ++
  (match diOpt with
    | some i => if i != 0 then [("with_crew", JVal.str (toString i))] else []
    | none => [])

/-- The title-search parameter object (also used by the fallback), exactly as
assembled in the title branch of the handler. -/
def titleParams (req : Req) (p : Int) : List (String × JVal) :=
  [("query", JVal.str (queryTrim req)), ("page", JVal.num p),
    ("include_adult", JVal.jbool false)] ++
  (if truthy req.year then [("primary_release_year", JVal.str (req.year.getD ""))] else [])

/-- A cache whose entries all stem from person-search fetches. -/
def personOnlyCache (c : Cache) : Prop :=
  ∀ e ∈ c, ∃ a, e.key = cacheKey "/search/person" a

/-! ## Helper lemmas -/

theorem cacheGet_nil (k : String) (now : Nat) : cacheGet [] k now = none := rfl

theorem cacheGet_set_self (c : Cache) (k : String) (d : TmdbDoc) (now t : Nat)
    (h : t ≤ now + CACHE_TTL_SECONDS) :
    cacheGet (cacheSet c k d now) k t = some d := by
  simp [cacheGet, cacheSet, List.find?, h]

theorem cacheGet_set_ne (c : Cache) (k k' : String) (d : TmdbDoc) (now t : Nat)
    (h : k' ≠ k) :
    cacheGet (cacheSet c k d now) k' t = cacheGet c k' t := by
  have hb : (k == k') = false := by
    simp only [beq_eq_false_iff_ne]
    exact fun he => h he.symm
  simp [cacheGet, cacheSet, List.find?, hb]

theorem cacheGet_none_of_all_ne (c : Cache) (k : String) (t : Nat)
    (h : ∀ e ∈ c, e.key ≠ k) : cacheGet c k t = none := by
  have : c.find? (fun e => e.key == k) = none := by
    rw [List.find?_eq_none]
    intro e he
    simpa [beq_iff_eq] using h e he
  simp [cacheGet, this]

/-- Two appended strings differ when their left parts disagree within the
first `n` characters. -/
theorem append_ne_of_take_ne (n : Nat) (p q x y : String)
    (hp : n ≤ p.data.length) (hq : n ≤ q.data.length)
    (hne : p.data.take n ≠ q.data.take n) : p ++ x ≠ q ++ y := by
  intro h
  apply hne
  have hd : p.data ++ x.data = q.data ++ y.data := by
    simpa [String.data_append] using congrArg String.data h
  have ht := congrArg (List.take n) hd
  rw [List.take_append_eq_append_take, List.take_append_eq_append_take,
    Nat.sub_eq_zero_of_le hp, Nat.sub_eq_zero_of_le hq] at ht
  simpa using ht

theorem key_person_ne_discover (a b : List (String × JVal)) :
    cacheKey "/search/person" a ≠ cacheKey "/discover/movie" b := by
  unfold cacheKey
  exact append_ne_of_take_ne 9 _ _ _ _ (by decide) (by decide) (by decide)

theorem key_person_ne_movie (a b : List (String × JVal)) :
    cacheKey "/search/person" a ≠ cacheKey "/search/movie" b := by
  unfold cacheKey
  exact append_ne_of_take_ne 9 _ _ _ _ (by decide) (by decide) (by decide)

theorem key_discover_ne_movie (a b : List (String × JVal)) :
    cacheKey "/discover/movie" a ≠ cacheKey "/search/movie" b := by
  unfold cacheKey
  exact append_ne_of_take_ne 2 _ _ _ _ (by decide) (by decide) (by decide)

/-- The person-search cache key determines the searched name. -/
theorem personKey_inj {ct dt : String}
    (h : cacheKey "/search/person" (personParams ct) =
      cacheKey "/search/person" (personParams dt)) : ct = dt := by
  have hd := congrArg String.data h
  simp [cacheKey, jsonStringify, commaJoin, personParams, jvalRender,
    String.data_append, List.append_assoc] at hd
  exact String.ext hd

theorem cacheGet_personOnly_discover {c : Cache} (hc : personOnlyCache c)
    (ps : List (String × JVal)) (t : Nat) :
    cacheGet c (cacheKey "/discover/movie" ps) t = none := by
  apply cacheGet_none_of_all_ne
  intro e he
  obtain ⟨a, ha⟩ := hc e he
  rw [ha]
  exact key_person_ne_discover a ps

theorem cacheGet_personOnly_movie {c : Cache} (hc : personOnlyCache c)
    (ps : List (String × JVal)) (t : Nat) :
    cacheGet c (cacheKey "/search/movie" ps) t = none := by
  apply cacheGet_none_of_all_ne
  intro e he
  obtain ⟨a, ha⟩ := hc e he
  rw [ha]
  exact key_person_ne_movie a ps

/-- Once validation passes, the handler is the cast-resolution stage. -/
theorem searchHandler_validated (net : String → List (String × JVal) → TmdbDoc)
    (now : Nat) (cy : Int) (req : Req) (c0 : Cache) (p : Int)
    (hpres : (truthy req.query || truthy req.year || truthy req.genre ||
      truthy req.cast || truthy req.director) = true)
    (hy : yearOk cy req.year = true)
    (hp : pageVal req.page = some p)
    (hg : genreBad req.genre = false) :
    searchHandler net now cy req c0 = castStage net now req p c0 := by
  unfold searchHandler
  rw [hpres, hy, hp]
  simp [hg]

theorem personOnlyCache_nil : personOnlyCache [] :=
  fun e he => absurd he (List.not_mem_nil e)

theorem personOnlyCache_set {c : Cache} (h : personOnlyCache c)
    (a : List (String × JVal)) (d : TmdbDoc) (now : Nat) :
    personOnlyCache (cacheSet c (cacheKey "/search/person" a) d now) := by
  intro e he
  rcases List.mem_cons.mp he with rfl | he
  · exact ⟨a, rfl⟩
  · exact h e he

theorem castStage_resolved (net : String → List (String × JVal) → TmdbDoc)
    (now : Nat) (req : Req) (p : Int) (ci di : Int)
    (hcast : truthy req.cast = false ∨
      ((castTrim req).length ≤ 100 ∧
        headId (net "/search/person" (personParams (castTrim req))) = some ci ∧ ci ≠ 0))
    (hdir : truthy req.director = false ∨
      ((dirTrim req).length ≤ 100 ∧
        headId (net "/search/person" (personParams (dirTrim req))) = some di ∧ di ≠ 0)) :
    ∃ c₁ rn, personOnlyCache c₁ ∧
      castStage net now req p [] =
        ⟨.ok (runStrategy net now req p
            (if truthy req.cast then some ci else none)
            (if truthy req.director then some di else none) c₁).ok,
          (runStrategy net now req p
            (if truthy req.cast then some ci else none)
            (if truthy req.director then some di else none) c₁).cache,
          ((if truthy req.cast = true then [("/search/person", personParams (castTrim req))] else []) ++
            (if truthy req.director = true then [("/search/person", personParams (dirTrim req))] else [])) ++
            (runStrategy net now req p
              (if truthy req.cast then some ci else none)
              (if truthy req.director then some di else none) c₁).fetches,
          rn ++ (runStrategy net now req p
            (if truthy req.cast then some ci else none)
            (if truthy req.director then some di else none) c₁).netCalls⟩ := by
  cases hct : truthy req.cast with
  | false =>
    cases hdt : truthy req.director with
    | false =>
      refine ⟨[], [], personOnlyCache_nil, ?_⟩
      simp [castStage, directorStage, hct, hdt]
    | true =>
      obtain ⟨hdlen, hdid, hdnz⟩ := hdir.resolve_left (by simp [hdt])
      have h100 : ¬ (jsTrim (req.director.getD "")).length > 100 := by
        have := hdlen
        unfold dirTrim at this
        omega
      refine ⟨cacheSet [] (cacheKey "/search/person" (personParams (dirTrim req)))
        (net "/search/person" (personParams (dirTrim req))) now,
        [("/search/person", personParams (dirTrim req))],
        personOnlyCache_set personOnlyCache_nil _ _ _, ?_⟩
      unfold dirTrim at hdid ⊢
      simp [castStage, directorStage, hct, hdt, h100, resolvePerson, tmdbFetch,
        cacheGet, List.find?, hdid]
  | true =>
    obtain ⟨hclen, hcid, hcnz⟩ := hcast.resolve_left (by simp [hct])
    have h100c : ¬ (jsTrim (req.cast.getD "")).length > 100 := by
      have := hclen
      unfold castTrim at this
      omega
    cases hdt : truthy req.director with
    | false =>
      refine ⟨cacheSet [] (cacheKey "/search/person" (personParams (castTrim req)))
        (net "/search/person" (personParams (castTrim req))) now,
        [("/search/person", personParams (castTrim req))],
        personOnlyCache_set personOnlyCache_nil _ _ _, ?_⟩
      unfold castTrim at hcid ⊢
      simp [castStage, directorStage, hct, hdt, h100c, resolvePerson, tmdbFetch,
        cacheGet, List.find?, hcid]
    | true =>
      obtain ⟨hdlen, hdid, hdnz⟩ := hdir.resolve_left (by simp [hdt])
      have h100d : ¬ (jsTrim (req.director.getD "")).length > 100 := by
        have := hdlen
        unfold dirTrim at this
        omega
      by_cases hk : cacheKey "/search/person" (personParams (dirTrim req)) =
          cacheKey "/search/person" (personParams (castTrim req))
      · -- director lookup hits the cast entry; the names coincide
        have hnames : dirTrim req = castTrim req := personKey_inj hk
        have hdieq : ci = di := by
          rw [hnames] at hdid
          exact Option.some.inj (hcid.symm.trans hdid)
        refine ⟨cacheSet [] (cacheKey "/search/person" (personParams (castTrim req)))
          (net "/search/person" (personParams (castTrim req))) now,
          [("/search/person", personParams (castTrim req))],
          personOnlyCache_set personOnlyCache_nil _ _ _, ?_⟩
        have hget : cacheGet
            (cacheSet [] (cacheKey "/search/person" (personParams (castTrim req)))
              (net "/search/person" (personParams (castTrim req))) now)
            (cacheKey "/search/person" (personParams (dirTrim req))) now =
            some (net "/search/person" (personParams (castTrim req))) := by
          rw [hnames]
          exact cacheGet_set_self _ _ _ _ _ (Nat.le_add_right _ _)
        unfold castTrim at hcid hget ⊢
        unfold dirTrim at hget ⊢
        rw [hnames] at hdid
        unfold castTrim at hdid
        simp [castStage, directorStage, hct, hdt, h100c, h100d, resolvePerson,
          tmdbFetch, cacheGet_nil, hget, hcid, hdid, hdieq]
      · refine ⟨cacheSet
          (cacheSet [] (cacheKey "/search/person" (personParams (castTrim req)))
            (net "/search/person" (personParams (castTrim req))) now)
          (cacheKey "/search/person" (personParams (dirTrim req)))
          (net "/search/person" (personParams (dirTrim req))) now,
          [("/search/person", personParams (castTrim req)),
            ("/search/person", personParams (dirTrim req))],
          personOnlyCache_set (personOnlyCache_set personOnlyCache_nil _ _ _) _ _ _, ?_⟩
        have hget : cacheGet
            (cacheSet [] (cacheKey "/search/person" (personParams (castTrim req)))
              (net "/search/person" (personParams (castTrim req))) now)
            (cacheKey "/search/person" (personParams (dirTrim req))) now = none := by
          rw [cacheGet_set_ne _ _ _ _ _ _ hk]
          exact cacheGet_nil _ _
        unfold castTrim at hcid hget ⊢
        unfold dirTrim at hdid hget ⊢
        simp [castStage, directorStage, hct, hdt, h100c, h100d, resolvePerson,
          tmdbFetch, cacheGet_nil, hget, hcid, hdid]

theorem runStrategy_title (net : String → List (String × JVal) → TmdbDoc)
    (now : Nat) (req : Req) (p : Int) (ciOpt diOpt : Option Int) (c : Cache)
    (hu : (truthy req.genre || idTruthy ciOpt || idTruthy diOpt ||
      (truthy req.year && !truthy req.query)) = false)
    (hc : personOnlyCache c) :
    runStrategy net now req p ciOpt diOpt c =
      ⟨mkOk (net "/search/movie"
          ([("query", JVal.str (queryTrim req)), ("page", JVal.num p),
            ("include_adult", JVal.jbool false)] ++
          (if truthy req.year then [("primary_release_year", JVal.str (req.year.getD ""))] else []))) p,
        cacheSet c
          (cacheKey "/search/movie"
            ([("query", JVal.str (queryTrim req)), ("page", JVal.num p),
              ("include_adult", JVal.jbool false)] ++
            (if truthy req.year then [("primary_release_year", JVal.str (req.year.getD ""))] else [])))
          (net "/search/movie"
            ([("query", JVal.str (queryTrim req)), ("page", JVal.num p),
              ("include_adult", JVal.jbool false)] ++
            (if truthy req.year then [("primary_release_year", JVal.str (req.year.getD ""))] else [])))
          now,
        [("/search/movie",
          [("query", JVal.str (queryTrim req)), ("page", JVal.num p),
            ("include_adult", JVal.jbool false)] ++
          (if truthy req.year then [("primary_release_year", JVal.str (req.year.getD ""))] else []))],
        [("/search/movie",
          [("query", JVal.str (queryTrim req)), ("page", JVal.num p),
            ("include_adult", JVal.jbool false)] ++
          (if truthy req.year then [("primary_release_year", JVal.str (req.year.getD ""))] else []))]⟩ := by
  unfold queryTrim
  simp [runStrategy, hu, tmdbFetch, cacheGet_personOnly_movie hc]

theorem runStrategy_discover (net : String → List (String × JVal) → TmdbDoc)
    (now : Nat) (req : Req) (p : Int) (ciOpt diOpt : Option Int) (c : Cache)
    (hu : (truthy req.genre || idTruthy ciOpt || idTruthy diOpt ||
      (truthy req.year && !truthy req.query)) = true)
    (hc : personOnlyCache c) :
    (truthy req.query = true →
      emptyResults (net "/discover/movie" (discoverParams req p ciOpt diOpt)) = true →
      runStrategy net now req p ciOpt diOpt c =
        ⟨mkOk (net "/search/movie" (titleParams req p)) p,
          cacheSet
            (cacheSet c (cacheKey "/discover/movie" (discoverParams req p ciOpt diOpt))
              (net "/discover/movie" (discoverParams req p ciOpt diOpt)) now)
            (cacheKey "/search/movie" (titleParams req p))
            (net "/search/movie" (titleParams req p)) now,
          [("/discover/movie", discoverParams req p ciOpt diOpt),
            ("/search/movie", titleParams req p)],
          [("/discover/movie", discoverParams req p ciOpt diOpt),
            ("/search/movie", titleParams req p)]⟩) ∧
    (emptyResults (net "/discover/movie" (discoverParams req p ciOpt diOpt)) = false →
      runStrategy net now req p ciOpt diOpt c =
        ⟨mkOk (net "/discover/movie" (discoverParams req p ciOpt diOpt)) p,
          cacheSet c (cacheKey "/discover/movie" (discoverParams req p ciOpt diOpt))
            (net "/discover/movie" (discoverParams req p ciOpt diOpt)) now,
          [("/discover/movie", discoverParams req p ciOpt diOpt)],
          [("/discover/movie", discoverParams req p ciOpt diOpt)]⟩) ∧
    (truthy req.query = false →
      runStrategy net now req p ciOpt diOpt c =
        ⟨mkOk (net "/discover/movie" (discoverParams req p ciOpt diOpt)) p,
          cacheSet c (cacheKey "/discover/movie" (discoverParams req p ciOpt diOpt))
            (net "/discover/movie" (discoverParams req p ciOpt diOpt)) now,
          [("/discover/movie", discoverParams req p ciOpt diOpt)],
          [("/discover/movie", discoverParams req p ciOpt diOpt)]⟩) := by
  have hfbget : cacheGet
      (cacheSet c (cacheKey "/discover/movie" (discoverParams req p ciOpt diOpt))
        (net "/discover/movie" (discoverParams req p ciOpt diOpt)) now)
      (cacheKey "/search/movie" (titleParams req p)) now = none := by
    rw [cacheGet_set_ne _ _ _ _ _ _ (Ne.symm (key_discover_ne_movie _ _))]
    exact cacheGet_personOnly_movie hc _ _
  have hdget : cacheGet c (cacheKey "/discover/movie" (discoverParams req p ciOpt diOpt)) now = none :=
    cacheGet_personOnly_discover hc _ _
  simp [discoverParams, titleParams, queryTrim] at hdget hfbget
  refine ⟨?_, ?_, ?_⟩
  · intro hq hempty
    simp [discoverParams, titleParams, queryTrim, hq] at hempty hdget hfbget
    simp only [runStrategy]
    rw [hu]
    simp [tmdbFetch, hdget, hfbget, hq, hempty, discoverParams, titleParams,
      queryTrim]
  · intro hne
    simp [discoverParams, titleParams, queryTrim] at hne
    simp only [runStrategy]
    rw [hu]
    simp [tmdbFetch, hdget, hne, discoverParams, titleParams, queryTrim]
  · intro hq
    simp [discoverParams, titleParams, queryTrim, hq] at hdget
    simp only [runStrategy]
    rw [hu]
    simp [tmdbFetch, hdget, hq, discoverParams, titleParams, queryTrim]

theorem directorStage_cases (net : String → List (String × JVal) → TmdbDoc)
    (now : Nat) (req : Req) (p : Int) (ci : Option Int) (c : Cache) (fs ns : List Call) :
    ((directorStage net now req p ci c fs ns).result = .error .directorTooLong →
      directorStage net now req p ci c fs ns = ⟨.error .directorTooLong, c, fs, ns⟩) ∧
    (∀ e, (directorStage net now req p ci c fs ns).result = .error e →
      e = .directorTooLong) := by
  unfold directorStage
  cases hdt : truthy req.director
  · simp
  · by_cases hl : (jsTrim (req.director.getD "")).length > 100
    · simp [hl]
    · simp only [hl, if_false, reduceIte]
      cases hid : headId (resolvePerson net now (jsTrim (req.director.getD "")) c).doc
      · simp [hid]
      · simp [hid]

theorem castStage_cases (net : String → List (String × JVal) → TmdbDoc)
    (now : Nat) (req : Req) (p : Int) (c : Cache) :
    ((castStage net now req p c).result = .error .castTooLong →
      castStage net now req p c = ⟨.error .castTooLong, c, [], []⟩) ∧
    ((castStage net now req p c).result = .error .directorTooLong →
      (castStage net now req p c).fetches.length ≤ 1 ∧
      (∀ call ∈ (castStage net now req p c).fetches, call.1 = "/search/person") ∧
      (truthy req.cast = false →
        castStage net now req p c = ⟨.error .directorTooLong, c, [], []⟩)) ∧
    (∀ e, (castStage net now req p c).result = .error e →
      e = .castTooLong ∨ e = .directorTooLong) := by
  unfold castStage
  cases hct : truthy req.cast
  · simp only [Bool.false_eq_true, if_false, reduceIte]
    obtain ⟨h1, h2⟩ := directorStage_cases net now req p none c [] []
    refine ⟨?_, ?_, ?_⟩
    · intro h
      have := h2 _ h
      simp at this
    · intro h
      rw [h1 h]
      simp
    · intro e he
      exact Or.inr (h2 e he)
  · by_cases hl : (jsTrim (req.cast.getD "")).length > 100
    · simp [hl]
    · simp only [hl, if_false, reduceIte]
      cases hid : headId (resolvePerson net now (jsTrim (req.cast.getD "")) c).doc
      · simp [hid]
      · simp only [hid]
        obtain ⟨h1, h2⟩ := directorStage_cases net now req p (some _) 
          (resolvePerson net now (jsTrim (req.cast.getD "")) c).cache
          [("/search/person", personParams (jsTrim (req.cast.getD "")))]
          (resolvePerson net now (jsTrim (req.cast.getD "")) c).netCalls
        refine ⟨?_, ?_, ?_⟩
        · intro h
          have := h2 _ h
          simp at this
        · intro h
          rw [h1 h]
          simp
        · intro e he
          exact Or.inr (h2 e he)

/-! ## Claims

One theorem per claim of the specification review, each stated over the
embedded handler.  Witness theorems instantiate the hypotheses at concrete
inputs. -/

/-- Claim C9 (confirmed): for every SearchRequest in which none of
`titleQuery`, `year`, `genreId`, `castName`, `directorName` is present
(present in the handler's sense: a non-empty string), Search fails with
`MissingCriteria` before planning begins and without any upstream call:
the cache is returned unchanged and no fetch or network call happens. -/
theorem claim_C9_missingCriteria (net : String → List (String × JVal) → TmdbDoc)
    (now : Nat) (cy : Int) (req : Req) (c0 : Cache)
    (hq : truthy req.query = false) (hy : truthy req.year = false)
    (hg : truthy req.genre = false) (hc : truthy req.cast = false)
    (hd : truthy req.director = false) :
    searchHandler net now cy req c0 = ⟨.error .missingCriteria, c0, [], []⟩ := by
  simp [searchHandler, hq, hy, hg, hc, hd]

/-- Witness for C9: the all-absent request is rejected with
`MissingCriteria` and no side effects. -/
theorem claim_C9_witness :
    truthy (none : Option String) = false ∧
    searchHandler (fun _ _ => ⟨none, none, none⟩) 0 2026
      ⟨none, none, none, none, none, none⟩ [] =
      ⟨.error .missingCriteria, [], [], []⟩ :=
  ⟨rfl, claim_C9_missingCriteria _ 0 2026 _ [] rfl rfl rfl rfl rfl⟩

/-- Claim C10 (confirmed): a request whose `query` is a non-empty
whitespace-only string and which has no other search field set is NOT
rejected with `MissingCriteria` — the presence check uses the untrimmed
string — and the planner invokes the Title Strategy with the trimmed,
i.e. empty, query string as the upstream keyword. -/
theorem claim_C10_whitespaceQuery (net : String → List (String × JVal) → TmdbDoc)
    (now : Nat) (cy : Int) (s : String)
    (hne : s.isEmpty = false) (hws : jsTrim s = "") :
    (searchHandler net now cy ⟨some s, none, none, none, none, none⟩ []).result ≠
      .error .missingCriteria ∧
    (searchHandler net now cy ⟨some s, none, none, none, none, none⟩ []).fetches =
      [("/search/movie",
        [("query", JVal.str ""), ("page", JVal.num 1), ("include_adult", JVal.jbool false)])] := by
  have hv : searchHandler net now cy ⟨some s, none, none, none, none, none⟩ [] =
      castStage net now ⟨some s, none, none, none, none, none⟩ 1 [] :=
    searchHandler_validated net now cy ⟨some s, none, none, none, none, none⟩ [] 1
      (by simp [truthy, hne]) rfl rfl rfl
  have ht := runStrategy_title net now ⟨some s, none, none, none, none, none⟩ 1 none none []
    (by simp [truthy, idTruthy]) personOnlyCache_nil
  rw [hv]
  simp [castStage, directorStage, truthy, ht, queryTrim, hws]

/-- Witness for C10: `query = " "` alone reaches the Title Strategy with an
empty keyword instead of failing with `MissingCriteria`. -/
theorem claim_C10_witness :
    (" " : String).isEmpty = false ∧ jsTrim " " = "" ∧
    ((searchHandler (fun _ _ => ⟨none, none, none⟩) 0 2026
        ⟨some " ", none, none, none, none, none⟩ []).result ≠
      .error .missingCriteria ∧
    (searchHandler (fun _ _ => ⟨none, none, none⟩) 0 2026
        ⟨some " ", none, none, none, none, none⟩ []).fetches =
      [("/search/movie",
        [("query", JVal.str ""), ("page", JVal.num 1), ("include_adult", JVal.jbool false)])]) :=
  ⟨rfl, by decide, claim_C10_whitespaceQuery _ 0 2026 " " rfl (by decide)⟩

/-- Counterexample for C5: the cache key is `path + "|" + JSON.stringify(params)`
with the properties in insertion order, not a sorted canonical encoding: two
parameter mappings holding exactly the same name/value pairs but assembled in
different orders produce different keys. -/
theorem claim_C5_counterexample :
    ([("a", JVal.str "1"), ("b", JVal.str "2")] : List (String × JVal)).Perm
      [("b", JVal.str "2"), ("a", JVal.str "1")] ∧
    cacheKey "/discover/movie" [("a", JVal.str "1"), ("b", JVal.str "2")] ≠
      cacheKey "/discover/movie" [("b", JVal.str "2"), ("a", JVal.str "1")] := by
  constructor
  · decide
  · decide

/-- Claim C5 as amended (corrected): the cache key is a deterministic
encoding of the upstream path and the parameter set in its assembly
(insertion) order: two parameter mappings containing exactly the same
name/value pairs in the same order yield the identical key, so the two
requests collide on the same cache entry; mappings with the same pairs
assembled in different orders can yield different keys. -/
theorem claim_C5_amended (path : String) (ps₁ ps₂ : List (String × JVal))
    (c : Cache) (d : TmdbDoc) (t : Nat) (h : ps₁ = ps₂) :
    cacheKey path ps₁ = cacheKey path ps₂ ∧
    cacheGet (cacheSet c (cacheKey path ps₁) d t) (cacheKey path ps₂) t = some d := by
  subst h
  exact ⟨rfl, cacheGet_set_self _ _ _ _ _ (Nat.le_add_right _ _)⟩

/-- Witness for the amended C5. -/
theorem claim_C5_amended_witness :
    ([("page", JVal.num 1)] : List (String × JVal)) = [("page", JVal.num 1)] ∧
    (cacheKey "/search/movie" [("page", JVal.num 1)] =
        cacheKey "/search/movie" [("page", JVal.num 1)] ∧
      cacheGet (cacheSet [] (cacheKey "/search/movie" [("page", JVal.num 1)])
          ⟨none, none, none⟩ 0)
        (cacheKey "/search/movie" [("page", JVal.num 1)]) 0 = some ⟨none, none, none⟩) :=
  ⟨rfl, claim_C5_amended "/search/movie" _ _ [] ⟨none, none, none⟩ 0 rfl⟩

/-- Claim C6 (confirmed): for every `(path, params)`, two identical fetches
where the second occurs within the 600-second lifetime of the entry created
by the first result in exactly one network call: the first stores the
response, the second is served from the cache with the same document and no
network I/O. -/
theorem claim_C6_cacheSingleFetch (net : String → List (String × JVal) → TmdbDoc)
    (t₀ t₁ : Nat) (path : String) (ps : List (String × JVal)) (c0 : Cache)
    (hmiss : cacheGet c0 (cacheKey path ps) t₀ = none)
    (hord : t₀ ≤ t₁) (hlt : t₁ < t₀ + 600) :
    (tmdbFetch net t₀ path ps c0).netCalls = [(path, ps)] ∧
    (tmdbFetch net t₁ path ps (tmdbFetch net t₀ path ps c0).cache).netCalls = [] ∧
    (tmdbFetch net t₁ path ps (tmdbFetch net t₀ path ps c0).cache).doc =
      (tmdbFetch net t₀ path ps c0).doc ∧
    (tmdbFetch net t₀ path ps c0).netCalls.length +
      (tmdbFetch net t₁ path ps (tmdbFetch net t₀ path ps c0).cache).netCalls.length = 1 := by
  have hhit : cacheGet (cacheSet c0 (cacheKey path ps) (net path ps) t₀) (cacheKey path ps) t₁ =
      some (net path ps) := by
    apply cacheGet_set_self
    unfold CACHE_TTL_SECONDS
    omega
  simp [tmdbFetch, hmiss, hhit]

/-- Witness for C6 at a concrete path, parameter set and pair of times. -/
theorem claim_C6_witness :
    cacheGet [] (cacheKey "/trending/movie/week" []) 5 = none ∧ 5 ≤ 100 ∧ 100 < 5 + 600 ∧
    ((tmdbFetch (fun _ _ => ⟨none, none, none⟩) 5 "/trending/movie/week" [] []).netCalls =
        [("/trending/movie/week", [])] ∧
      (tmdbFetch (fun _ _ => ⟨none, none, none⟩) 100 "/trending/movie/week" []
          (tmdbFetch (fun _ _ => ⟨none, none, none⟩) 5 "/trending/movie/week" [] []).cache).netCalls = [] ∧
      (tmdbFetch (fun _ _ => ⟨none, none, none⟩) 100 "/trending/movie/week" []
          (tmdbFetch (fun _ _ => ⟨none, none, none⟩) 5 "/trending/movie/week" [] []).cache).doc =
        (tmdbFetch (fun _ _ => ⟨none, none, none⟩) 5 "/trending/movie/week" [] []).doc ∧
      (tmdbFetch (fun _ _ => ⟨none, none, none⟩) 5 "/trending/movie/week" [] []).netCalls.length +
        (tmdbFetch (fun _ _ => ⟨none, none, none⟩) 100 "/trending/movie/week" []
          (tmdbFetch (fun _ _ => ⟨none, none, none⟩) 5 "/trending/movie/week" [] []).cache).netCalls.length = 1) :=
  ⟨rfl, by decide, by decide,
    claim_C6_cacheSingleFetch _ 5 100 "/trending/movie/week" [] [] rfl (by decide) (by decide)⟩

/-- Claim C7 (confirmed; the sliding-window counting of the limiter
libraries is modelled from the spec, the thresholds and delay function from
the source configuration): outside test mode, with `n` the ordinal of the
request within the trailing 60-second window, requests `n ≤ 30` pass with no
delay and no rejection, requests `31 ≤ n ≤ 40` are delayed `(n - 30) * 500`
milliseconds and not rejected, and request `n = 41` is rejected with
`RateLimited` (the response carrying the standard rate-limit headers,
`RATE_STANDARD_HEADERS`). -/
theorem claim_C7_rateLimiting (times : List Nat) (t n : Nat)
    (hn : countInWindow (t :: times) t = n) :
    (n ≤ 30 → abuseControl false times t = ⟨0, false⟩) ∧
    (31 ≤ n → n ≤ 40 → abuseControl false times t = ⟨(n - 30) * 500, false⟩) ∧
    (n = 41 → (abuseControl false times t).rejected = true ∧
      RATE_STANDARD_HEADERS = true) := by
  refine ⟨?_, ?_, ?_⟩
  · intro h30
    have h1 : ¬ n > DELAY_AFTER := by unfold DELAY_AFTER; omega
    have h2 : ¬ n > RATE_MAX := by unfold RATE_MAX; omega
    simp [abuseControl, hn, h1, h2]
  · intro h31 h40
    have h1 : n > DELAY_AFTER := by unfold DELAY_AFTER; omega
    have h2 : ¬ n > RATE_MAX := by unfold RATE_MAX; omega
    simp [abuseControl, hn, h1, h2, delayMsFn]
  · intro h41
    have h2 : n > RATE_MAX := by unfold RATE_MAX; omega
    simp [abuseControl, hn, h2, RATE_STANDARD_HEADERS]

/-- Witness for C7 at `n = 15` (no delay), `n = 35` (2500 ms delay) and
`n = 41` (rejected). -/
theorem claim_C7_witness :
    countInWindow (100 :: List.replicate 14 100) 100 = 15 ∧
    countInWindow (100 :: List.replicate 34 100) 100 = 35 ∧
    countInWindow (100 :: List.replicate 40 100) 100 = 41 ∧
    abuseControl false (List.replicate 14 100) 100 = ⟨0, false⟩ ∧
    abuseControl false (List.replicate 34 100) 100 = ⟨(35 - 30) * 500, false⟩ ∧
    ((abuseControl false (List.replicate 40 100) 100).rejected = true ∧
      RATE_STANDARD_HEADERS = true) :=
  ⟨by decide, by decide, by decide,
    (claim_C7_rateLimiting (List.replicate 14 100) 100 15 (by decide)).1 (by decide),
    ((claim_C7_rateLimiting (List.replicate 34 100) 100 35 (by decide)).2.1 (by decide) (by decide)),
    ((claim_C7_rateLimiting (List.replicate 40 100) 100 41 (by decide)).2.2 rfl)⟩

/-- Counterexample for C4: with `cast = "A"` (resolving to a person) and a
101-character `director`, the handler returns the `NameTooLong` validation
error for the director, yet a person-search upstream call has already been
made and the cache modified — the validation failure is not free of side
effects. -/
theorem claim_C4_counterexample :
    (searchHandler (fun _ _ => ⟨some [⟨5⟩], some 1, some 1⟩) 0 2026
        ⟨none, none, none, some "A", some (String.mk (List.replicate 101 'b')), none⟩ []).result =
      .error .directorTooLong ∧
    (searchHandler (fun _ _ => ⟨some [⟨5⟩], some 1, some 1⟩) 0 2026
        ⟨none, none, none, some "A", some (String.mk (List.replicate 101 'b')), none⟩ []).fetches =
      [("/search/person", personParams "A")] ∧
    (searchHandler (fun _ _ => ⟨some [⟨5⟩], some 1, some 1⟩) 0 2026
        ⟨none, none, none, some "A", some (String.mk (List.replicate 101 'b')), none⟩ []).cache ≠ [] ∧
    (searchHandler (fun _ _ => ⟨some [⟨5⟩], some 1, some 1⟩) 0 2026
        ⟨none, none, none, some "A", some (String.mk (List.replicate 101 'b')), none⟩ []).netCalls ≠ [] := by
  refine ⟨by decide, by decide, by decide, by decide⟩

/-- Claim C4 as amended (corrected): every validation failure among
`MissingCriteria`, `InvalidYear`, `InvalidPage`, `InvalidGenre` and
`NameTooLong` for `castName` is returned before any upstream call and
without side effects (no fetch, no network call, cache unchanged).
`NameTooLong` for `directorName` is returned before any movie fetch (at
most one fetch can precede it, and only a person search), and when
`castName` is absent it too precedes any upstream call with the cache
unchanged; but when `castName` is present and resolves, the cast
person-search call has already happened by the time the director
`NameTooLong` error is returned. -/
theorem claim_C4_amended (net : String → List (String × JVal) → TmdbDoc)
    (now : Nat) (cy : Int) (req : Req) (c0 : Cache) :
    (∀ e, (searchHandler net now cy req c0).result = .error e → e ≠ .directorTooLong →
      searchHandler net now cy req c0 = ⟨.error e, c0, [], []⟩) ∧
    ((searchHandler net now cy req c0).result = .error .directorTooLong →
      (searchHandler net now cy req c0).fetches.length ≤ 1 ∧
      (∀ call ∈ (searchHandler net now cy req c0).fetches, call.1 = "/search/person") ∧
      (truthy req.cast = false →
        searchHandler net now cy req c0 = ⟨.error .directorTooLong, c0, [], []⟩)) := by
  unfold searchHandler
  cases hpres : (truthy req.query || truthy req.year || truthy req.genre ||
      truthy req.cast || truthy req.director)
  · simp
  · simp only [Bool.not_true, Bool.false_eq_true, if_false, reduceIte]
    cases hy : req.year.isSome && !yearOk cy req.year
    · simp only [Bool.false_eq_true, if_false, reduceIte]
      cases hpv : pageVal req.page
      · simp
      · simp only []
        cases hgb : genreBad req.genre
        · simp only [Bool.false_eq_true, if_false, reduceIte]
          obtain ⟨h1, h2, h3⟩ := castStage_cases net now req _ c0
          refine ⟨?_, ?_⟩
          · intro e he hne
            rcases h3 e he with rfl | rfl
            · exact h1 he
            · exact absurd rfl hne
          · intro h
            exact h2 h
        · simp
    · simp

/-- Witness for the amended C4: an `InvalidYear` request comes back with
the error, an unchanged cache and no fetches. -/
theorem claim_C4_amended_witness :
    (searchHandler (fun _ _ => ⟨none, none, none⟩) 0 2026
        ⟨some "x", some "1700", none, none, none, none⟩ []).result =
      .error .invalidYear ∧
    searchHandler (fun _ _ => ⟨none, none, none⟩) 0 2026
        ⟨some "x", some "1700", none, none, none, none⟩ [] =
      ⟨.error .invalidYear, [], [], []⟩ :=
  ⟨by decide,
    (claim_C4_amended (fun _ _ => ⟨none, none, none⟩) 0 2026
      ⟨some "x", some "1700", none, none, none, none⟩ []).1 .invalidYear
      (by decide) (by decide)⟩

/-- Claim C8 (confirmed): for every request with `year` present (and at
least one field present, so the missing-criteria check passes), Search
fails with `InvalidYear` exactly when `Number(year)` is not an integer in
`[1880, currentYear + 5]`; in particular both boundary values pass the
year validation. -/
theorem claim_C8_yearValidation (net : String → List (String × JVal) → TmdbDoc)
    (now : Nat) (cy : Int) (req : Req) (c0 : Cache) (ys : String)
    (hyy : req.year = some ys)
    (hpres : (truthy req.query || truthy req.year || truthy req.genre ||
      truthy req.cast || truthy req.director) = true) :
    ((searchHandler net now cy req c0).result = .error .invalidYear ↔
      (jsNumberInt ys).elim True (fun y => y < 1880 ∨ cy + 5 < y)) := by
  have hrhs : ((jsNumberInt ys).elim True (fun y => y < 1880 ∨ cy + 5 < y)) ↔
      yearOk cy req.year = false := by
    rw [hyy]
    unfold yearOk
    cases hjs : jsNumberInt ys with
    | none => simp [hjs]
    | some y =>
        simp only [hjs, Option.elim]
        constructor
        · intro h
          simp only [Bool.and_eq_false_iff, decide_eq_false_iff_not]
          rcases h with h | h
          · exact Or.inl (by omega)
          · exact Or.inr (by omega)
        · intro h
          simp only [Bool.and_eq_false_iff, decide_eq_false_iff_not] at h
          rcases h with h | h
          · exact Or.inl (by omega)
          · exact Or.inr (by omega)
  rw [hrhs]
  constructor
  · intro h
    by_contra hok'
    have hok : yearOk cy req.year = true := by
      revert hok'
      cases yearOk cy req.year <;> simp
    unfold searchHandler at h
    rw [hpres] at h
    simp only [Bool.not_true, if_false, Bool.false_eq_true, reduceIte] at h
    rw [hok] at h
    simp only [Bool.not_true, Bool.and_false, Bool.false_eq_true, if_false, reduceIte] at h
    cases hpv : pageVal req.page with
    | none => rw [hpv] at h; simp at h
    | some p =>
        rw [hpv] at h
        cases hgb : genreBad req.genre with
        | true => rw [hgb] at h; simp at h
        | false =>
            rw [hgb] at h
            simp only [Bool.false_eq_true, if_false, reduceIte] at h
            have := (castStage_cases net now req p c0).2.2 _ h
            simp at this
  · intro hok
    rw [hyy] at hok
    unfold searchHandler
    rw [hpres]
    simp [hyy, hok]

/-- Witness for C8: the lower boundary `year = "1880"` does not trigger
`InvalidYear` (for `currentYear = 2026`). -/
theorem claim_C8_witness :
    (⟨some "x", some "1880", none, none, none, none⟩ : Req).year = some "1880" ∧
    ((searchHandler (fun _ _ => ⟨none, none, none⟩) 0 2026
        ⟨some "x", some "1880", none, none, none, none⟩ []).result = .error .invalidYear ↔
      (jsNumberInt "1880").elim True (fun y => y < 1880 ∨ 2026 + 5 < y)) :=
  ⟨rfl, claim_C8_yearValidation (fun _ _ => ⟨none, none, none⟩) 0 2026
    ⟨some "x", some "1880", none, none, none, none⟩ [] "1880" rfl (by decide)⟩

/-- Claim C3 (confirmed): for every validated SearchRequest with `castName`
present whose person search returns an empty result set, the handler
returns a success — `{results: [], total_results: 0, total_pages: 0,
page: requested}` — not an error; and the same holds independently for
`directorName`, whatever the `castName` situation (absent, resolving, or
itself unresolvable — validation only requires a cast name, when present,
to pass its length check). -/
theorem claim_C3_emptyPerson (net : String → List (String × JVal) → TmdbDoc)
    (now : Nat) (cy : Int) (req : Req) (p : Int)
    (hy : yearOk cy req.year = true)
    (hp : pageVal req.page = some p)
    (hg : genreBad req.genre = false) :
    (truthy req.cast = true →
      (castTrim req).length ≤ 100 →
      headId (net "/search/person" (personParams (castTrim req))) = none →
      (searchHandler net now cy req []).result = .ok ⟨[], 0, 0, p⟩) ∧
    (truthy req.director = true →
      (dirTrim req).length ≤ 100 →
      headId (net "/search/person" (personParams (dirTrim req))) = none →
      (truthy req.cast = true → (castTrim req).length ≤ 100) →
      (searchHandler net now cy req []).result = .ok ⟨[], 0, 0, p⟩) := by
  constructor
  · intro hct hlen hid
    have hpres : (truthy req.query || truthy req.year || truthy req.genre ||
        truthy req.cast || truthy req.director) = true := by
      simp [hct]
    rw [searchHandler_validated net now cy req [] p hpres hy hp hg]
    have h100 : ¬ (jsTrim (req.cast.getD "")).length > 100 := by
      unfold castTrim at hlen
      omega
    unfold castTrim at hid
    simp [castStage, hct, h100, resolvePerson, tmdbFetch, cacheGet_nil, hid]
  · intro hdt hdlen hdid hclen
    have hpres : (truthy req.query || truthy req.year || truthy req.genre ||
        truthy req.cast || truthy req.director) = true := by
      simp [hdt]
    rw [searchHandler_validated net now cy req [] p hpres hy hp hg]
    have h100d : ¬ (jsTrim (req.director.getD "")).length > 100 := by
      unfold dirTrim at hdlen
      omega
    cases hct : truthy req.cast with
    | false =>
        unfold dirTrim at hdid
        simp [castStage, directorStage, hct, hdt, h100d, resolvePerson, tmdbFetch,
          cacheGet_nil, hdid]
    | true =>
        have h100c : ¬ (jsTrim (req.cast.getD "")).length > 100 := by
          have := hclen hct
          unfold castTrim at this
          omega
        cases hcid : headId (net "/search/person" (personParams (jsTrim (req.cast.getD "")))) with
        | none =>
            simp [castStage, hct, h100c, resolvePerson, tmdbFetch, cacheGet_nil, hcid]
        | some cid =>
            by_cases hk : cacheKey "/search/person" (personParams (jsTrim (req.director.getD ""))) =
                cacheKey "/search/person" (personParams (jsTrim (req.cast.getD "")))
            · -- the director lookup would alias the cast entry, forcing equal
              -- names — contradicting that one resolves and the other does not
              have hnames := personKey_inj hk
              unfold dirTrim at hdid
              rw [hnames, hcid] at hdid
              simp at hdid
            · have hget : cacheGet
                  (cacheSet [] (cacheKey "/search/person" (personParams (jsTrim (req.cast.getD ""))))
                    (net "/search/person" (personParams (jsTrim (req.cast.getD "")))) now)
                  (cacheKey "/search/person" (personParams (jsTrim (req.director.getD "")))) now =
                  none := by
                rw [cacheGet_set_ne _ _ _ _ _ _ hk]
                exact cacheGet_nil _ _
              unfold dirTrim at hdid
              simp [castStage, directorStage, hct, hdt, h100c, h100d, resolvePerson,
                tmdbFetch, cacheGet_nil, hget, hcid, hdid]

/-- Witness for C3, both halves: a cast name the provider cannot resolve
yields the empty success envelope with the requested page echoed; and an
unresolvable director name does the same even when a cast name is present
and resolves (to id 9 here). -/
theorem claim_C3_witness :
    (searchHandler (fun _ _ => ⟨some [], some 0, some 0⟩) 0 2026
        ⟨none, none, none, some "Unknown Actor", none, none⟩ []).result =
      .ok ⟨[], 0, 0, 1⟩ ∧
    headId ((fun _ ps => if ps = personParams "Cast Person" then
        (⟨some [⟨9⟩], some 1, some 1⟩ : TmdbDoc) else ⟨some [], some 0, some 0⟩)
      ("/search/person" : String)
      (personParams (castTrim ⟨none, none, none, some "Cast Person", some "Nobody", none⟩))) =
      some 9 ∧
    (searchHandler (fun _ ps => if ps = personParams "Cast Person" then
        (⟨some [⟨9⟩], some 1, some 1⟩ : TmdbDoc) else ⟨some [], some 0, some 0⟩) 0 2026
      ⟨none, none, none, some "Cast Person", some "Nobody", none⟩ []).result =
      .ok ⟨[], 0, 0, 1⟩ :=
  ⟨(claim_C3_emptyPerson (fun _ _ => ⟨some [], some 0, some 0⟩) 0 2026
      ⟨none, none, none, some "Unknown Actor", none, none⟩ 1 rfl rfl rfl).1
      rfl (by decide) rfl,
    by decide,
    (claim_C3_emptyPerson (fun _ ps => if ps = personParams "Cast Person" then
        (⟨some [⟨9⟩], some 1, some 1⟩ : TmdbDoc) else ⟨some [], some 0, some 0⟩) 0 2026
      ⟨none, none, none, some "Cast Person", some "Nobody", none⟩ 1 rfl rfl rfl).2
      rfl (by decide) (by decide) (by decide)⟩

/-- Claim C1 (confirmed): strategy selection is deterministic with the
stated priority.  For every validated request that reaches strategy
selection (names absent or resolved to a non-zero id): if none of `genreId`,
resolved cast id, resolved director id is present and `titleQuery` is
present, the handler makes exactly one upstream call, to the title-search
endpoint with the (trimmed) query, the page and the optional year; otherwise
(genre, a resolved id, or year without query) the strategy call is to the
discovery endpoint with page, `sort_by popularity.desc` and exactly the
supplied year/genre/cast-id/director-id/keyword parameters — in particular a
genre-only request uses Discover with that genre and no keyword. -/
theorem claim_C1_strategySelection (net : String → List (String × JVal) → TmdbDoc)
    (now : Nat) (cy : Int) (req : Req) (p : Int) (ci di : Int)
    (hy : yearOk cy req.year = true)
    (hp : pageVal req.page = some p)
    (hg : genreBad req.genre = false)
    (hpres : (truthy req.query || truthy req.year || truthy req.genre ||
      truthy req.cast || truthy req.director) = true)
    (hcast : truthy req.cast = false ∨
      ((castTrim req).length ≤ 100 ∧
        headId (net "/search/person" (personParams (castTrim req))) = some ci ∧ ci ≠ 0))
    (hdir : truthy req.director = false ∨
      ((dirTrim req).length ≤ 100 ∧
        headId (net "/search/person" (personParams (dirTrim req))) = some di ∧ di ≠ 0)) :
    (truthy req.genre = false → truthy req.cast = false → truthy req.director = false →
      truthy req.query = true →
      (searchHandler net now cy req []).fetches = [("/search/movie", titleParams req p)] ∧
      (searchHandler net now cy req []).result =
        .ok (mkOk (net "/search/movie" (titleParams req p)) p)) ∧
    ((truthy req.genre || truthy req.cast || truthy req.director ||
        (truthy req.year && !truthy req.query)) = true →
      ∃ rest, (searchHandler net now cy req []).fetches =
        ((if truthy req.cast = true then [("/search/person", personParams (castTrim req))] else []) ++
          (if truthy req.director = true then [("/search/person", personParams (dirTrim req))] else [])) ++
        ("/discover/movie", discoverParams req p
          (if truthy req.cast then some ci else none)
          (if truthy req.director then some di else none)) :: rest) := by
  obtain ⟨c₁, rn, hpo, hcs⟩ := castStage_resolved net now req p ci di hcast hdir
  rw [searchHandler_validated net now cy req [] p hpres hy hp hg, hcs]
  constructor
  · intro hgf hcf hdf hq
    simp only [hcf, hdf, Bool.false_eq_true, if_false, reduceIte]
    have hu0 : (truthy req.genre || idTruthy none || idTruthy none ||
        (truthy req.year && !truthy req.query)) = false := by
      simp [hgf, hq, idTruthy]
    rw [runStrategy_title net now req p none none c₁ hu0 hpo]
    simp [titleParams]
  · intro htrig
    have hu : (truthy req.genre || idTruthy (if truthy req.cast then some ci else none) ||
        idTruthy (if truthy req.director then some di else none) ||
        (truthy req.year && !truthy req.query)) = true := by
      cases hc' : truthy req.cast with
      | true =>
          obtain ⟨-, -, hcnz⟩ := hcast.resolve_left (by simp [hc'])
          simp [idTruthy, hcnz]
      | false =>
          cases hd' : truthy req.director with
          | true =>
              obtain ⟨-, -, hdnz⟩ := hdir.resolve_left (by simp [hd'])
              simp [hc', idTruthy, hdnz]
          | false =>
              simpa [hc', hd', idTruthy] using htrig
    obtain ⟨h1, h2, h3⟩ := runStrategy_discover net now req p
      (if truthy req.cast then some ci else none)
      (if truthy req.director then some di else none) c₁ hu hpo
    by_cases hq : truthy req.query = true
    · by_cases he : emptyResults (net "/discover/movie" (discoverParams req p
          (if truthy req.cast then some ci else none)
          (if truthy req.director then some di else none))) = true
      · rw [h1 hq he]
        exact ⟨[("/search/movie", titleParams req p)], by simp⟩
      · have he' : emptyResults (net "/discover/movie" (discoverParams req p
            (if truthy req.cast then some ci else none)
            (if truthy req.director then some di else none))) = false := by
          revert he
          cases emptyResults (net "/discover/movie" (discoverParams req p
            (if truthy req.cast then some ci else none)
            (if truthy req.director then some di else none))) <;> simp
        rw [h2 he']
        exact ⟨[], by simp⟩
    · have hq' : truthy req.query = false := by
        revert hq
        cases truthy req.query <;> simp
      rw [h3 hq']
      exact ⟨[], by simp⟩

/-- Witness for C1: a genre-only request (`genre = "28"`) routes to the
Discover Strategy with that genre and no keyword. -/
theorem claim_C1_witness :
    (yearOk 2026 none = true ∧ pageVal none = some 1 ∧ genreBad (some "28") = false) ∧
    (∃ rest, (searchHandler (fun _ _ => ⟨some [⟨7⟩], some 1, some 1⟩) 0 2026
        ⟨none, none, some "28", none, none, none⟩ []).fetches =
      ("/discover/movie",
        discoverParams ⟨none, none, some "28", none, none, none⟩ 1 none none) :: rest) :=
  ⟨⟨rfl, rfl, rfl⟩,
    (claim_C1_strategySelection (fun _ _ => ⟨some [⟨7⟩], some 1, some 1⟩) 0 2026
      ⟨none, none, some "28", none, none, none⟩ 1 1 1 rfl rfl rfl (by decide)
      (Or.inl rfl) (Or.inl rfl)).2 (by decide)⟩

/-- Claim C2 (confirmed): whenever the Discover Strategy was used, a
`titleQuery` was supplied and the Discover response's result set is empty,
the handler re-issues exactly one Title Strategy call with the same query,
year and page and returns that response instead; there is no fallback when
Discover returns non-empty results, none when no `titleQuery` was supplied,
none when the Title Strategy was the primary, and never more than one
fallback attempt (the complete fetch traces are given). -/
theorem claim_C2_fallback (net : String → List (String × JVal) → TmdbDoc)
    (now : Nat) (cy : Int) (req : Req) (p : Int) (ci di : Int)
    (hy : yearOk cy req.year = true)
    (hp : pageVal req.page = some p)
    (hg : genreBad req.genre = false)
    (hpres : (truthy req.query || truthy req.year || truthy req.genre ||
      truthy req.cast || truthy req.director) = true)
    (hcast : truthy req.cast = false ∨
      ((castTrim req).length ≤ 100 ∧
        headId (net "/search/person" (personParams (castTrim req))) = some ci ∧ ci ≠ 0))
    (hdir : truthy req.director = false ∨
      ((dirTrim req).length ≤ 100 ∧
        headId (net "/search/person" (personParams (dirTrim req))) = some di ∧ di ≠ 0)) :
    ((truthy req.genre || truthy req.cast || truthy req.director ||
        (truthy req.year && !truthy req.query)) = true →
      truthy req.query = true →
      emptyResults (net "/discover/movie" (discoverParams req p
        (if truthy req.cast then some ci else none)
        (if truthy req.director then some di else none))) = true →
      (searchHandler net now cy req []).fetches =
        ((if truthy req.cast = true then [("/search/person", personParams (castTrim req))] else []) ++
          (if truthy req.director = true then [("/search/person", personParams (dirTrim req))] else [])) ++
        [("/discover/movie", discoverParams req p
            (if truthy req.cast then some ci else none)
            (if truthy req.director then some di else none)),
          ("/search/movie", titleParams req p)] ∧
      (searchHandler net now cy req []).result =
        .ok (mkOk (net "/search/movie" (titleParams req p)) p)) ∧
    ((truthy req.genre || truthy req.cast || truthy req.director ||
        (truthy req.year && !truthy req.query)) = true →
      emptyResults (net "/discover/movie" (discoverParams req p
        (if truthy req.cast then some ci else none)
        (if truthy req.director then some di else none))) = false →
      (searchHandler net now cy req []).fetches =
        ((if truthy req.cast = true then [("/search/person", personParams (castTrim req))] else []) ++
          (if truthy req.director = true then [("/search/person", personParams (dirTrim req))] else [])) ++
        [("/discover/movie", discoverParams req p
            (if truthy req.cast then some ci else none)
            (if truthy req.director then some di else none))] ∧
      (searchHandler net now cy req []).result =
        .ok (mkOk (net "/discover/movie" (discoverParams req p
          (if truthy req.cast then some ci else none)
          (if truthy req.director then some di else none))) p)) ∧
    ((truthy req.genre || truthy req.cast || truthy req.director ||
        (truthy req.year && !truthy req.query)) = true →
      truthy req.query = false →
      (searchHandler net now cy req []).fetches =
        ((if truthy req.cast = true then [("/search/person", personParams (castTrim req))] else []) ++
          (if truthy req.director = true then [("/search/person", personParams (dirTrim req))] else [])) ++
        [("/discover/movie", discoverParams req p
            (if truthy req.cast then some ci else none)
            (if truthy req.director then some di else none))] ∧
      (searchHandler net now cy req []).result =
        .ok (mkOk (net "/discover/movie" (discoverParams req p
          (if truthy req.cast then some ci else none)
          (if truthy req.director then some di else none))) p)) ∧
    (truthy req.genre = false → truthy req.cast = false → truthy req.director = false →
      truthy req.query = true →
      (searchHandler net now cy req []).fetches = [("/search/movie", titleParams req p)]) := by
  obtain ⟨c₁, rn, hpo, hcs⟩ := castStage_resolved net now req p ci di hcast hdir
  rw [searchHandler_validated net now cy req [] p hpres hy hp hg, hcs]
  have mkhu : (truthy req.genre || truthy req.cast || truthy req.director ||
      (truthy req.year && !truthy req.query)) = true →
      (truthy req.genre || idTruthy (if truthy req.cast then some ci else none) ||
        idTruthy (if truthy req.director then some di else none) ||
        (truthy req.year && !truthy req.query)) = true := by
    intro htrig
    cases hc' : truthy req.cast with
    | true =>
        obtain ⟨-, -, hcnz⟩ := hcast.resolve_left (by simp [hc'])
        simp [idTruthy, hcnz]
    | false =>
        cases hd' : truthy req.director with
        | true =>
            obtain ⟨-, -, hdnz⟩ := hdir.resolve_left (by simp [hd'])
            simp [hc', idTruthy, hdnz]
        | false =>
            simpa [hc', hd', idTruthy] using htrig
  refine ⟨?_, ?_, ?_, ?_⟩
  · intro htrig hq he
    obtain ⟨h1, -, -⟩ := runStrategy_discover net now req p
      (if truthy req.cast then some ci else none)
      (if truthy req.director then some di else none) c₁ (mkhu htrig) hpo
    rw [h1 hq he]
    simp
  · intro htrig he
    obtain ⟨-, h2, -⟩ := runStrategy_discover net now req p
      (if truthy req.cast then some ci else none)
      (if truthy req.director then some di else none) c₁ (mkhu htrig) hpo
    rw [h2 he]
    simp
  · intro htrig hq
    obtain ⟨-, -, h3⟩ := runStrategy_discover net now req p
      (if truthy req.cast then some ci else none)
      (if truthy req.director then some di else none) c₁ (mkhu htrig) hpo
    rw [h3 hq]
    simp
  · intro hgf hcf hdf hq
    simp only [hcf, hdf, Bool.false_eq_true, if_false, reduceIte]
    have hu0 : (truthy req.genre || idTruthy none || idTruthy none ||
        (truthy req.year && !truthy req.query)) = false := by
      simp [hgf, hq, idTruthy]
    rw [runStrategy_title net now req p none none c₁ hu0 hpo]
    simp [titleParams]

/-- Witness for C2: `query = "x"` plus `genre = "28"` where Discover comes
back empty triggers exactly one Title fallback whose response is returned. -/
theorem claim_C2_witness :
    emptyResults ((fun path _ => if path = "/discover/movie" then
        (⟨some [], some 0, some 0⟩ : TmdbDoc) else ⟨some [⟨7⟩], some 1, some 1⟩)
      "/discover/movie"
      (discoverParams ⟨some "x", none, some "28", none, none, none⟩ 1 none none)) = true ∧
    (searchHandler (fun path _ => if path = "/discover/movie" then
        (⟨some [], some 0, some 0⟩ : TmdbDoc) else ⟨some [⟨7⟩], some 1, some 1⟩) 0 2026
      ⟨some "x", none, some "28", none, none, none⟩ []).fetches =
      [("/discover/movie",
          discoverParams ⟨some "x", none, some "28", none, none, none⟩ 1 none none),
        ("/search/movie", titleParams ⟨some "x", none, some "28", none, none, none⟩ 1)] ∧
    (searchHandler (fun path _ => if path = "/discover/movie" then
        (⟨some [], some 0, some 0⟩ : TmdbDoc) else ⟨some [⟨7⟩], some 1, some 1⟩) 0 2026
      ⟨some "x", none, some "28", none, none, none⟩ []).result =
      .ok ⟨[⟨7⟩], 1, 1, 1⟩ :=
  ⟨by decide,
    (claim_C2_fallback (fun path _ => if path = "/discover/movie" then
        (⟨some [], some 0, some 0⟩ : TmdbDoc) else ⟨some [⟨7⟩], some 1, some 1⟩) 0 2026
      ⟨some "x", none, some "28", none, none, none⟩ 1 1 1 rfl rfl rfl (by decide)
      (Or.inl rfl) (Or.inl rfl)).1 (by decide) rfl (by decide)⟩

end CineSearch
